import Mathlib

/-!
Verification of the hardware statistics collector in `src/hardware/stats.py`.

The Python class `HardwareStats` gathers four metric groups (OS identity,
CPU temperature, per-core CPU usage, memory usage) and aggregates them into
a single report, substituting documented fallback values whenever an
underlying query fails.

Shallow embedding conventions:
* Python floats are modelled as exact rationals (`ℚ`); `round(x, 1)` is
  modelled as exact round-half-to-even at one decimal place.
* Every external facility the code consults (filesystem, environment
  variables, `socket`, `platform`, `psutil`) is a field of an `Env` record;
  a facility that may raise an exception is modelled with `Option`
  (`none` = the call raised).
* Each method of the class becomes a total Lean function on `Env`; "never
  raises to the caller" is realised by the functions being total and every
  exception path of the source resolving to the documented fallback value.
* Log output relevant to the specification (warning vs error diagnostics in
  the temperature query) is modelled explicitly in the function's result.
-/

namespace HardwareStats

/-- Round a rational to the nearest integer, ties to the even integer.
Models the integer-rounding core of Python's banker's rounding `round`. -/
def roundHalfEven (q : ℚ) : ℤ :=
  if q - (⌊q⌋ : ℚ) < 1 / 2 then ⌊q⌋
  else if 1 / 2 < q - (⌊q⌋ : ℚ) then ⌊q⌋ + 1
  else if ⌊q⌋ % 2 = 0 then ⌊q⌋ else ⌊q⌋ + 1

/-- Model of Python `round(x, 1)`: round to one decimal place, ties to even
(exact-arithmetic model of CPython's float rounding). -/
def round1 (q : ℚ) : ℚ := (roundHalfEven (10 * q) : ℚ) / 10

/-- Whitespace characters removed by Python `str.strip()`. -/
def isPySpace (c : Char) : Bool :=
  c = ' ' || c = '\t' || c = '\n' || c = '\r' || c = '\x0b' || c = '\x0c'

/-- Model of Python `str.strip()`: drop whitespace from both ends. -/
def pyStrip (s : String) : String :=
  String.mk (((s.data.dropWhile isPySpace).reverse.dropWhile isPySpace).reverse)

/-- Numeric value of a list of decimal digit characters. -/
def digitsToNat (cs : List Char) : Nat :=
  cs.foldl (fun acc c => 10 * acc + (c.toNat - 48)) 0

/-- Unsigned part of `pyFloat`: digits with an optional single dot.
`none` models `float()` raising `ValueError`. -/
def pyFloatUnsigned (cs : List Char) : Option ℚ :=
  let intPart := cs.takeWhile Char.isDigit
  let rest := cs.dropWhile Char.isDigit
  match rest with
  | [] =>
    if intPart.isEmpty then none
    else some ((digitsToNat intPart : ℕ) : ℚ)
  | c :: fracRest =>
    if c = '.' then
      let fracPart := fracRest.takeWhile Char.isDigit
      let rest2 := fracRest.dropWhile Char.isDigit
      if rest2.isEmpty && !(intPart.isEmpty && fracPart.isEmpty) then
        some (((digitsToNat intPart : ℕ) : ℚ) +
          ((digitsToNat fracPart : ℕ) : ℚ) / (10 : ℚ) ^ fracPart.length)
      else none
    else none

/-- Model of Python `float(s)` on plain decimal literals (optional sign,
digits, optional fractional part). Exponents, `inf`/`nan` and underscore
separators — which never occur in thermal-zone files — are not modelled and
simply fail, which coincides with the error branch of the source. -/
def pyFloat (s : String) : Option ℚ :=
  match s.data with
  | '-' :: r => (pyFloatUnsigned r).map (fun v => -v)
  | '+' :: r => pyFloatUnsigned r
  | cs => pyFloatUnsigned cs

/-- External world of `HardwareStats`: every facility the class consults.
A facility whose call may raise is an `Option` (`none` = the call raised). -/
structure Env where
  /-- `os.path.exists p` for each candidate path. -/
  pathExists : String → Bool
  /-- `open(p).read()`; `none` models an `OSError` on open or read. -/
  readFile : String → Option String
  /-- `os.getenv("PUBLIC_HOSTNAME")`: `none` = variable unset. -/
  getenvPublicHostname : Option String
  /-- `socket.gethostname()`; `none` models the call raising. -/
  gethostname : Option String
  /-- `platform.system()`; `none` models the call raising. -/
  platformSystem : Option String
  /-- `platform.machine()`; `none` models the call raising. -/
  platformMachine : Option String
  /-- `psutil.cpu_percent(interval=0.1, percpu=True)`; `none` models the
  call raising, `some raw` its returned per-core percentage list. -/
  cpuPercent : Option (List ℚ)
  /-- `psutil.virtual_memory()` as the pair `(used, total)` in bytes;
  `none` models the call raising. -/
  virtualMemory : Option (Nat × Nat)

/-- The ordered candidate list `thermal_paths` of `_get_cpu_temperature`. -/
def thermal_paths : List String :=
  ["/sys/class/thermal/thermal_zone0/temp",
   "/sys/devices/virtual/thermal/thermal_zone0/temp"]

/-- Severity of the diagnostic a query writes on its degraded paths. -/
inductive LogLevel where
  | warning : LogLevel
  | error : LogLevel
deriving DecidableEq

/-- The `{hostname, platform, arch}` dictionary of `_get_os_info`. -/
structure OsInfo where
  hostname : String
  platform : String
  arch : String
deriving DecidableEq

/-- The `{used, total}` dictionary of `_get_memory_usage` (bytes). -/
structure MemoryUsage where
  used : Nat
  total : Nat
deriving DecidableEq

/-- The dictionary returned by `get_stats`. The `error` key is only present
in the exception branch, modelled as `Option`. -/
structure StatsReport where
  success : Bool
  error : Option String
  os : OsInfo
  cpuTemp : ℚ
  cpuUsage : List ℚ
  memoryUsage : MemoryUsage
deriving DecidableEq

/-- The all-`"unknown"` fallback triple of `_get_os_info`. -/
def unknownOsInfo : OsInfo :=
  { hostname := "unknown", platform := "unknown", arch := "unknown" }

/-- Translation of `HardwareStats._get_cpu_temperature`. Walks
`thermal_paths` in order, reads the first existing path, strips and parses
its contents, divides by 1000.0 and rounds to one decimal. Returns the
temperature together with the diagnostic written on the degraded paths:
`LogLevel.warning` when no candidate path exists, `LogLevel.error` when the
read or the parse of the chosen path raises (the `except` branch). -/
def get_cpu_temperature (env : Env) : ℚ × Option LogLevel :=
  match thermal_paths.find? env.pathExists with
  | some path =>
    match env.readFile path with
    | some content =>
      match pyFloat (pyStrip content) with
      | some v => (round1 (v / 1000), none)
      | none => (0, some LogLevel.error)
    | none => (0, some LogLevel.error)
  | none => (0, some LogLevel.warning)

/-- Translation of `HardwareStats._get_os_info`. Python evaluates
`os.getenv("PUBLIC_HOSTNAME", socket.gethostname())` with an eagerly
evaluated default, then `platform.system()`, then `platform.machine()`,
inside one `try`: if any of the three raises, the whole triple falls back
to `"unknown"`. -/
def get_os_info (env : Env) : OsInfo :=
  match env.gethostname, env.platformSystem, env.platformMachine with
  | some hn, some ps, some pm =>
    { hostname := env.getenvPublicHostname.getD hn, platform := ps, arch := pm }
  | _, _, _ => unknownOsInfo

/-- Translation of `HardwareStats._get_cpu_usage`. Rounds each per-core
sample to one decimal; if the sampling call raises, returns `[0.0]`. -/
def get_cpu_usage (env : Env) : List ℚ :=
  match env.cpuPercent with
  | some per_cpu => per_cpu.map round1
  | none => [0]

/-- Translation of `HardwareStats._get_memory_usage`. Passes the measured
`used`/`total` byte counts through unrounded; if the call raises, returns
`{used: 0, total: 0}`. -/
def get_memory_usage (env : Env) : MemoryUsage :=
  match env.virtualMemory with
  | some (u, t) => { used := u, total := t }
  | none => { used := 0, total := 0 }

/-- The report built by the `except` branch of `get_stats`: `success=False`,
the exception's message as `error`, and the universal fallback value for
every field. -/
def fallbackReport (msg : String) : StatsReport :=
  { success := false
    error := some msg
    os := unknownOsInfo
    cpuTemp := 0
    cpuUsage := [0]
    memoryUsage := { used := 0, total := 0 } }

/-- Translation of `HardwareStats.get_stats`. `fault` models an exception
raised inside the `try` block itself (possible only through an injected
defect or test mock, since the four sub-queries are total): `some msg`
means the aggregation raised with message `msg` and the `except` branch
runs; `none` is the behaviour of the code as written. -/
def get_stats_withFault (fault : Option String) (env : Env) : StatsReport :=
  match fault with
  | some msg => fallbackReport msg
  | none =>
    { success := true
      error := none
      os := get_os_info env
      cpuTemp := (get_cpu_temperature env).1
      cpuUsage := get_cpu_usage env
      memoryUsage := get_memory_usage env }

/-- `HardwareStats.get_stats` as it executes: no fault injected. -/
def get_stats (env : Env) : StatsReport :=
  get_stats_withFault none env

/-- A concrete healthy environment, base for the test environments below:
no thermal sensor, hostname override unset, all introspection succeeding. -/
def baseEnv : Env :=
  { pathExists := fun _ => false
    readFile := fun _ => none
    getenvPublicHostname := none
    gethostname := some "raspberrypi"
    platformSystem := some "Linux"
    platformMachine := some "armv7l"
    cpuPercent := some []
    virtualMemory := some (0, 0) }

/-- Environment where the first thermal path exists and contains `"45678"`. -/
def envC2 : Env :=
  { baseEnv with
    pathExists := fun p => p == "/sys/class/thermal/thermal_zone0/temp"
    readFile := fun _ => some "45678" }

/-- Environment where the second (but not the first) thermal path exists
and its read raises. -/
def envC3 : Env :=
  { baseEnv with
    pathExists := fun p => p == "/sys/devices/virtual/thermal/thermal_zone0/temp"
    readFile := fun _ => none }

/-- Environment with the hostname override set and a differing OS hostname. -/
def envC4 : Env :=
  { baseEnv with
    getenvPublicHostname := some "myhost"
    gethostname := some "real-host" }

/-- Environment where `socket.gethostname()` raises. -/
def envC5 : Env :=
  { baseEnv with gethostname := none }

/-- Environment whose per-core sampling returns `[23.456, 77.891]`. -/
def envC6 : Env :=
  { baseEnv with cpuPercent := some [23456 / 1000, 77891 / 1000] }

/-- Environment whose per-core sampling returns the out-of-range `[150.0]`. -/
def envC7bad : Env :=
  { baseEnv with cpuPercent := some [150] }

/-- Environment whose per-core sampling returns the in-range `[30.0]`. -/
def envC7ok : Env :=
  { baseEnv with cpuPercent := some [30] }

/-- Environment with a concrete memory measurement. -/
def envC8 : Env :=
  { baseEnv with virtualMemory := some (123456789, 987654321) }

/-! ### Helper lemmas about the rounding model -/

theorem floor_le_roundHalfEven (q : ℚ) : ⌊q⌋ ≤ roundHalfEven q := by
  unfold roundHalfEven
  split_ifs <;> omega

theorem roundHalfEven_le_ceil (q : ℚ) : roundHalfEven q ≤ ⌈q⌉ := by
  have hfc : ⌊q⌋ ≤ ⌈q⌉ := Int.floor_le_ceil q
  have hkey : (1 : ℚ) / 2 ≤ q - (⌊q⌋ : ℚ) → ⌊q⌋ + 1 ≤ ⌈q⌉ := by
    intro h
    have h1 : (⌊q⌋ : ℚ) < q := by linarith
    have h2 : ⌊q⌋ < ⌈q⌉ := Int.lt_ceil.mpr h1
    omega
  unfold roundHalfEven
  split_ifs with h1 h2 h3
  · exact hfc
  · exact hkey (le_of_lt h2)
  · exact hfc
  · exact hkey (le_of_not_lt h1)

theorem round1_nonneg {q : ℚ} (h : 0 ≤ q) : 0 ≤ round1 q := by
  have h1 : (0 : ℤ) ≤ ⌊(10 : ℚ) * q⌋ := Int.floor_nonneg.mpr (by linarith)
  have h2 : (0 : ℤ) ≤ roundHalfEven (10 * q) :=
    le_trans h1 (floor_le_roundHalfEven _)
  have h3 : (0 : ℚ) ≤ (roundHalfEven (10 * q) : ℚ) := by exact_mod_cast h2
  unfold round1
  exact div_nonneg h3 (by norm_num)

theorem round1_le_hundred {q : ℚ} (h : q ≤ 100) : round1 q ≤ 100 := by
  have h1 : ⌈(10 : ℚ) * q⌉ ≤ (1000 : ℤ) := Int.ceil_le.mpr (by push_cast; linarith)
  have h2 : roundHalfEven (10 * q) ≤ 1000 :=
    le_trans (roundHalfEven_le_ceil _) h1
  have h3 : (roundHalfEven (10 * q) : ℚ) ≤ 1000 := by exact_mod_cast h2
  unfold round1
  linarith

/-! ### Claim theorems -/

/-- C2: `_get_cpu_temperature` reads the first candidate thermal path that
exists (consulting `/sys/class/thermal/thermal_zone0/temp` before
`/sys/devices/virtual/thermal/thermal_zone0/temp`), parses the stripped
whole contents as a number, divides by 1000.0 and rounds to one decimal;
in particular a file containing `"45678"` parses to 45678 and yields 45.7. -/
theorem c2_temperature_first_existing_path :
    (∀ env c v, env.pathExists "/sys/class/thermal/thermal_zone0/temp" = true →
      env.readFile "/sys/class/thermal/thermal_zone0/temp" = some c →
      pyFloat (pyStrip c) = some v →
      get_cpu_temperature env = (round1 (v / 1000), none)) ∧
    (∀ env c v, env.pathExists "/sys/class/thermal/thermal_zone0/temp" = false →
      env.pathExists "/sys/devices/virtual/thermal/thermal_zone0/temp" = true →
      env.readFile "/sys/devices/virtual/thermal/thermal_zone0/temp" = some c →
      pyFloat (pyStrip c) = some v →
      get_cpu_temperature env = (round1 (v / 1000), none)) ∧
    pyFloat (pyStrip "45678") = some 45678 ∧
    round1 ((45678 : ℚ) / 1000) = 457 / 10 := by
  refine ⟨?_, ?_, by decide, by norm_num [round1, roundHalfEven]⟩
  · intro env c v h1 h2 h3
    have hf : thermal_paths.find? env.pathExists =
        some "/sys/class/thermal/thermal_zone0/temp" := by
      simp [thermal_paths, List.find?_cons, h1]
    simp only [get_cpu_temperature, hf, h2, h3]
  · intro env c v h0 h1 h2 h3
    have hf : thermal_paths.find? env.pathExists =
        some "/sys/devices/virtual/thermal/thermal_zone0/temp" := by
      simp [thermal_paths, List.find?_cons, h0, h1]
    simp only [get_cpu_temperature, hf, h2, h3]

/-- Witness for C2: in `envC2` the first thermal path exists with contents
`"45678"` and the returned temperature is 45.7 with no diagnostic. -/
theorem c2_witness : get_cpu_temperature envC2 = (457 / 10, none) := by
  have h := c2_temperature_first_existing_path
  have he := h.1 envC2 "45678" 45678 (by decide) rfl h.2.2.1
  rw [he, h.2.2.2]

/-- C3: `_get_cpu_temperature` returns 0.0 in both degraded cases — when no
candidate path exists (logging a warning) and when the chosen path's read or
parse fails (logging an error) — and, being total, never raises. -/
theorem c3_temperature_degraded_cases (env : Env) :
    ((∀ p ∈ thermal_paths, env.pathExists p = false) →
      get_cpu_temperature env = (0, some LogLevel.warning)) ∧
    (∀ p, thermal_paths.find? env.pathExists = some p →
      (env.readFile p = none ∨
        ∃ c, env.readFile p = some c ∧ pyFloat (pyStrip c) = none) →
      get_cpu_temperature env = (0, some LogLevel.error)) := by
  constructor
  · intro h
    have hf : thermal_paths.find? env.pathExists = none := by
      rw [List.find?_eq_none]
      intro p hp
      simp [h p hp]
    simp only [get_cpu_temperature, hf]
  · intro p hp hbad
    rcases hbad with hnone | ⟨c, hc, hparse⟩
    · simp only [get_cpu_temperature, hp, hnone]
    · simp only [get_cpu_temperature, hp, hc, hparse]

/-- Witness for C3: in `envC3` only the second thermal path exists and its
read raises, so the temperature is 0.0 with an error diagnostic. -/
theorem c3_witness : get_cpu_temperature envC3 = (0, some LogLevel.error) :=
  (c3_temperature_degraded_cases envC3).2
    "/sys/devices/virtual/thermal/thermal_zone0/temp" (by decide) (Or.inl rfl)

/-- C4: when identity introspection succeeds, `_get_os_info` reports the
`PUBLIC_HOSTNAME` override verbatim whenever it is set, regardless of the
OS-reported hostname, and the OS-reported hostname when it is unset. -/
theorem c4_hostname_override (env : Env) (hn ps pm : String)
    (hh : env.gethostname = some hn) (hs : env.platformSystem = some ps)
    (hm : env.platformMachine = some pm) :
    (∀ s, env.getenvPublicHostname = some s → (get_os_info env).hostname = s) ∧
    (env.getenvPublicHostname = none → (get_os_info env).hostname = hn) := by
  constructor
  · intro s hset
    simp [get_os_info, hh, hs, hm, hset]
  · intro hunset
    simp [get_os_info, hh, hs, hm, hunset]

/-- Witness for C4: in `envC4` the override is `"myhost"` while the OS
reports `"real-host"`, and the reported hostname is `"myhost"`. -/
theorem c4_witness : (get_os_info envC4).hostname = "myhost" :=
  (c4_hostname_override envC4 "real-host" "Linux" "armv7l" rfl rfl rfl).1
    "myhost" rfl

/-- C5: if reading any one of hostname, platform or architecture fails,
`_get_os_info` returns the literal `"unknown"` for all three fields (the
identity is fetched in one bundled try), and, being total, never raises. -/
theorem c5_identity_all_or_nothing (env : Env)
    (h : env.gethostname = none ∨ env.platformSystem = none ∨
      env.platformMachine = none) :
    get_os_info env = unknownOsInfo := by
  unfold get_os_info
  cases hh : env.gethostname <;> cases hs : env.platformSystem <;>
    cases hm : env.platformMachine <;> simp_all

/-- Witness for C5: in `envC5` only `socket.gethostname()` raises, yet all
three identity fields are `"unknown"`. -/
theorem c5_witness : get_os_info envC5 = unknownOsInfo :=
  c5_identity_all_or_nothing envC5 (Or.inl rfl)

/-- C6: `_get_cpu_usage` returns exactly `[0.0]` when sampling raises, and
on success the raw percentage list mapped element-wise through one-decimal
rounding (hence the same length and order); being total, it never raises. -/
theorem c6_cpu_usage_shape (env : Env) :
    (env.cpuPercent = none → get_cpu_usage env = [0]) ∧
    (∀ raw, env.cpuPercent = some raw →
      get_cpu_usage env = raw.map round1 ∧
      (get_cpu_usage env).length = raw.length) := by
  constructor
  · intro h
    simp [get_cpu_usage, h]
  · intro raw h
    simp [get_cpu_usage, h]

/-- Witness for C6: in `envC6` sampling yields `[23.456, 77.891]` and the
result is `[23.5, 77.9]`. -/
theorem c6_witness : get_cpu_usage envC6 = [47 / 2, 779 / 10] := by
  have h := ((c6_cpu_usage_shape envC6).2 [23456 / 1000, 77891 / 1000] rfl).1
  rw [h]
  simp only [List.map_cons, List.map_nil]
  norm_num [round1, roundHalfEven]

/-- Counterexample to C7 as stated: the code does not clamp the sampled
percentages, so for a sampling facility output of `[150.0]` (which the
quantifier "every possible output" includes) the reported usage `[150.0]`
has an element outside `[0.0, 100.0]`. -/
theorem c7_counterexample :
    get_cpu_usage envC7bad = [150] ∧ ¬ ((150 : ℚ) ≤ 100) := by
  constructor
  · have h : get_cpu_usage envC7bad = [round1 150] := rfl
    rw [h]
    norm_num [round1, roundHalfEven]
  · norm_num

/-- C7 (amended): provided every raw sample produced by the sampling
facility lies in `[0.0, 100.0]`, every element of the usage list returned
by `_get_cpu_usage` — including the `[0.0]` failure fallback — lies in
`[0.0, 100.0]`. -/
theorem c7_cpu_usage_in_range (env : Env)
    (h : ∀ raw, env.cpuPercent = some raw → ∀ x ∈ raw, 0 ≤ x ∧ x ≤ 100) :
    ∀ q ∈ get_cpu_usage env, 0 ≤ q ∧ q ≤ 100 := by
  intro q hq
  cases hc : env.cpuPercent with
  | none =>
    rw [show get_cpu_usage env = [0] by simp [get_cpu_usage, hc]] at hq
    simp only [List.mem_singleton] at hq
    subst hq
    norm_num
  | some raw =>
    rw [show get_cpu_usage env = raw.map round1 by simp [get_cpu_usage, hc]] at hq
    rcases List.mem_map.mp hq with ⟨x, hx, rfl⟩
    rcases h raw hc x hx with ⟨h0, h100⟩
    exact ⟨round1_nonneg h0, round1_le_hundred h100⟩

/-- Witness for the amended C7: in `envC7ok` the sample list is `[30.0]`,
and the reported element 30.0 lies in `[0.0, 100.0]`. -/
theorem c7_witness :
    (30 : ℚ) ∈ get_cpu_usage envC7ok ∧ 0 ≤ (30 : ℚ) ∧ (30 : ℚ) ≤ 100 := by
  have hmem : (30 : ℚ) ∈ get_cpu_usage envC7ok := by
    have h : get_cpu_usage envC7ok = [round1 30] := rfl
    rw [h]
    norm_num [round1, roundHalfEven]
  refine ⟨hmem, c7_cpu_usage_in_range envC7ok ?_ 30 hmem⟩
  intro raw hr x hx
  simp only [envC7ok, baseEnv] at hr
  injection hr with hr
  subst hr
  simp only [List.mem_singleton] at hx
  subst hx
  norm_num

/-- C8: `_get_memory_usage` returns `{used: 0, total: 0}` when memory
introspection raises; on success it reports the measured byte counts
unchanged, so `used ≤ total` holds whenever the measurement satisfies it;
being total, it never raises. -/
theorem c8_memory_usage (env : Env) :
    (env.virtualMemory = none →
      get_memory_usage env = { used := 0, total := 0 }) ∧
    (∀ u t, env.virtualMemory = some (u, t) →
      get_memory_usage env = { used := u, total := t } ∧
      (u ≤ t → (get_memory_usage env).used ≤ (get_memory_usage env).total)) := by
  constructor
  · intro h
    simp [get_memory_usage, h]
  · intro u t h
    refine ⟨by simp [get_memory_usage, h], fun hle => ?_⟩
    simp [get_memory_usage, h, hle]

/-- Witness for C8: in `envC8` the measurement is `(123456789, 987654321)`,
reported unchanged and satisfying `used ≤ total`. -/
theorem c8_witness :
    get_memory_usage envC8 = { used := 123456789, total := 987654321 } ∧
    (get_memory_usage envC8).used ≤ (get_memory_usage envC8).total :=
  ⟨((c8_memory_usage envC8).2 123456789 987654321 rfl).1,
   ((c8_memory_usage envC8).2 123456789 987654321 rfl).2 (by norm_num)⟩

/-- C9: whenever the aggregation step does not fail, the report has
`success = true` — sub-query failures, all absorbed inside the sub-queries,
never set it to false in any environment; and when the aggregation step
itself raises with message `msg`, the `except` branch of `get_stats`
returns `success = false`, the (non-empty) message as `error`, and the
universal fallback value for every field, independently of — hence
overriding — anything the environment provided. -/
theorem c9_aggregation_failure (env : Env) (msg : String) (hmsg : msg ≠ "") :
    (∀ env2, (get_stats_withFault none env2).success = true) ∧
    get_stats_withFault (some msg) env = fallbackReport msg ∧
    (get_stats_withFault (some msg) env).success = false ∧
    (get_stats_withFault (some msg) env).error = some msg ∧ msg ≠ "" ∧
    (get_stats_withFault (some msg) env).os = unknownOsInfo ∧
    (get_stats_withFault (some msg) env).cpuTemp = 0 ∧
    (get_stats_withFault (some msg) env).cpuUsage = [0] ∧
    (get_stats_withFault (some msg) env).memoryUsage = { used := 0, total := 0 } ∧
    (∀ env2, get_stats_withFault (some msg) env = get_stats_withFault (some msg) env2) :=
  ⟨fun _ => rfl, rfl, rfl, rfl, hmsg, rfl, rfl, rfl, rfl, fun _ => rfl⟩

/-- Witness for C9: over `baseEnv`, the no-fault report has `success = true`,
while a fault with message `"boom"` produces the fallback report with
`success = false` and that error string. -/
theorem c9_witness :
    (get_stats_withFault none baseEnv).success = true ∧
    (get_stats_withFault (some "boom") baseEnv).success = false ∧
    (get_stats_withFault (some "boom") baseEnv).error = some "boom" :=
  ⟨(c9_aggregation_failure baseEnv "boom" (by decide)).1 baseEnv,
   (c9_aggregation_failure baseEnv "boom" (by decide)).2.2.1,
   (c9_aggregation_failure baseEnv "boom" (by decide)).2.2.2.1⟩

/-- C1: for every environment — hence every combination of sub-query
success and failure — `get_stats` returns a report with all fields present:
`success` is true and each of `os`, `cpuTemp`, `cpuUsage`, `memoryUsage`
holds either the real measurement or its documented fallback. -/
theorem c1_get_stats_fully_populated (env : Env) :
    (get_stats env).success = true ∧
    ((∃ hn ps pm, env.gethostname = some hn ∧ env.platformSystem = some ps ∧
        env.platformMachine = some pm ∧
        (get_stats env).os = { hostname := env.getenvPublicHostname.getD hn
                               platform := ps, arch := pm }) ∨
      (get_stats env).os = unknownOsInfo) ∧
    ((∃ v, (get_stats env).cpuTemp = round1 (v / 1000)) ∨
      (get_stats env).cpuTemp = 0) ∧
    ((∃ raw, env.cpuPercent = some raw ∧
        (get_stats env).cpuUsage = raw.map round1) ∨
      (get_stats env).cpuUsage = [0]) ∧
    ((∃ u t, env.virtualMemory = some (u, t) ∧
        (get_stats env).memoryUsage = { used := u, total := t }) ∨
      (get_stats env).memoryUsage = { used := 0, total := 0 }) := by
  have hos : (get_stats env).os = get_os_info env := rfl
  have htemp : (get_stats env).cpuTemp = (get_cpu_temperature env).1 := rfl
  have husage : (get_stats env).cpuUsage = get_cpu_usage env := rfl
  have hmem : (get_stats env).memoryUsage = get_memory_usage env := rfl
  refine ⟨rfl, ?_, ?_, ?_, ?_⟩
  · rw [hos]
    cases hh : env.gethostname with
    | none => exact Or.inr (by simp [get_os_info, hh])
    | some hn =>
      cases hs : env.platformSystem with
      | none => exact Or.inr (by simp [get_os_info, hh, hs])
      | some ps =>
        cases hm : env.platformMachine with
        | none => exact Or.inr (by simp [get_os_info, hh, hs, hm])
        | some pm =>
          exact Or.inl ⟨hn, ps, pm, rfl, rfl, rfl, by simp [get_os_info, hh, hs, hm]⟩
  · rw [htemp]
    cases hf : thermal_paths.find? env.pathExists with
    | none => exact Or.inr (by simp [get_cpu_temperature, hf])
    | some path =>
      cases hr : env.readFile path with
      | none => exact Or.inr (by simp [get_cpu_temperature, hf, hr])
      | some c =>
        cases hv : pyFloat (pyStrip c) with
        | none => exact Or.inr (by simp [get_cpu_temperature, hf, hr, hv])
        | some v =>
          exact Or.inl ⟨v, by simp [get_cpu_temperature, hf, hr, hv]⟩
  · rw [husage]
    cases hc : env.cpuPercent with
    | none => exact Or.inr (by simp [get_cpu_usage, hc])
    | some raw => exact Or.inl ⟨raw, rfl, by simp [get_cpu_usage, hc]⟩
  · rw [hmem]
    cases hv : env.virtualMemory with
    | none => exact Or.inr (by simp [get_memory_usage, hv])
    | some ut =>
      obtain ⟨u, t⟩ := ut
      exact Or.inl ⟨u, t, rfl, by simp [get_memory_usage, hv]⟩

/-- Witness for C1: the report for the concrete `baseEnv` has `success`
set to true. -/
theorem c1_witness : (get_stats baseEnv).success = true :=
  (c1_get_stats_fully_populated baseEnv).1

/-- C10: the four sub-queries are total, so the `except` branch of
`get_stats` is unreachable: for every environment the report is the
happy-path bundle of the four sub-query results, with `success = true` and
no `error` field. -/
theorem c10_exception_branch_unreachable (env : Env) :
    (get_stats env).success = true ∧ (get_stats env).error = none ∧
    get_stats env =
      { success := true, error := none, os := get_os_info env
        cpuTemp := (get_cpu_temperature env).1
        cpuUsage := get_cpu_usage env
        memoryUsage := get_memory_usage env } :=
  ⟨rfl, rfl, rfl⟩

/-- Witness for C10: the report for the concrete `baseEnv` has
`success = true` and no `error` field. -/
theorem c10_witness :
    (get_stats baseEnv).success = true ∧ (get_stats baseEnv).error = none :=
  ⟨(c10_exception_branch_unreachable baseEnv).1,
   (c10_exception_branch_unreachable baseEnv).2.1⟩

end HardwareStats
